import Mathlib

/-!
Shallow embedding of `visual_data_discover.py`: discovery, filtering and
ordering of photo and video files in a directory, with two photo policies
(plain filename ordering vs. EXIF-metadata-validated ordering).

Filenames and paths are modelled as lists of characters.  Directory state
is modelled explicitly: `none` stands for "the path is not a directory",
`some entries` for a directory whose listing yields `entries` (the entry
names, as `os.listdir` returns them — without path separators).  The EXIF
extractor collaborator (`exif_processing`, not part of the analysed
source) is a parameter: a bundle of accessor functions on an abstract tag
type.  Numeric metadata values are modelled as rationals; Python
truthiness on such an optional value (`not x`) is absence or equality
with zero.
-/

namespace VDD

/-- A filename or path, as a list of characters. -/
abbrev Name := List Char

/-- Python `sub in s` (substring containment) on strings. -/
def isSubstring (sub : Name) : Name → Bool
  | [] => sub.isEmpty
  | c :: cs => sub.isPrefixOf (c :: cs) || isSubstring sub cs

/-- Python `str.lower` restricted to ASCII, which is all the source ever
compares against (the literal `thumb`). -/
def lowerName (n : Name) : Name := n.map Char.toLower

/-- Split `rest` at its last dot: `some (before, fromDot)` where `fromDot`
starts with the last `'.'` of `rest`, or `none` if `rest` has no dot.
Helper for `splitext`. -/
def splitLastDot : Name → Option (Name × Name)
  | [] => none
  | c :: cs =>
    match splitLastDot cs with
    | some (b, e) => some (c :: b, e)
    | none => if c = '.' then some ([], c :: cs) else none

/-- CPython `os.path.splitext` for arguments containing no path separator
(the source only applies it to `os.listdir` entry names): the extension
begins at the last dot, unless every character before that dot is itself a
dot (leading dots are not an extension separator). -/
def splitext (n : Name) : Name × Name :=
  let lead := n.takeWhile (· = '.')
  let rest := n.dropWhile (· = '.')
  match splitLastDot rest with
  | some (b, e) => (lead ++ b, e)
  | none => (n, [])

/-- CPython `posixpath.join a b` for two components. -/
def joinPath (d n : Name) : Name :=
  if n.head? = some '/' then n
  else if d = [] then n
  else if d.getLast? = some '/' then d ++ n
  else d ++ '/' :: n

/-- CPython `os.path.basename`: everything after the last `'/'`. -/
def basename (p : Name) : Name :=
  (p.reverse.takeWhile (· ≠ '/')).reverse

/-- The decimal digit characters of a name, in order
(`filter(str.isdigit, ...)`, ASCII digits). -/
def digitsOf (n : Name) : Name := n.filter Char.isDigit

/-- Value of a string of decimal digits as parsed by Python `int`. -/
def digitVal (ds : Name) : Nat :=
  ds.foldl (fun a c => 10 * a + (c.toNat - 48)) 0

/-- Python `int("".join(filter(str.isdigit, basename(p))))`: the sort key
of the plain photo and video policies.  `none` models the `ValueError`
raised by `int("")` when the name contains no digit. -/
def digitKey (n : Name) : Option Nat :=
  let ds := digitsOf (basename n)
  if ds.isEmpty then none else some (digitVal ds)

/-- Modelled from the spec: the `Photo` record of `osc_models` (not in the
analysed source) is a plain attribute container with a path, an index and
optional metadata fields, all metadata absent on construction. -/
structure Photo where
  path : Name
  index : Nat := 0
  exif_timestamp : Option ℚ := none
  gps_timestamp : Option ℚ := none
  latitude : Option ℚ := none
  longitude : Option ℚ := none
  gps_speed : Option ℚ := none
  gps_altitude : Option ℚ := none
  gps_compass : Option ℚ := none
deriving DecidableEq, Repr

/-- Modelled from the spec: the `Video` record of `osc_models` (not in the
analysed source) carries only a path and an index. -/
structure Video where
  path : Name
  index : Nat := 0
deriving DecidableEq, Repr

/-- Modelled from the spec: the `exif_processing` collaborator interface
(not in the analysed source) — `all_tags` maps a file path to an abstract
tag mapping, and each accessor derives an optional value from it. -/
structure ExifProcessing (Tags : Type) where
  all_tags : Name → Tags
  timestamp : Tags → Option ℚ
  gps_timestamp : Tags → Option ℚ
  gps_latitude : Tags → Option ℚ
  gps_longitude : Tags → Option ℚ
  gps_speed : Tags → Option ℚ
  gps_altitude : Tags → Option ℚ
  gps_compass : Tags → Option ℚ

/-- Python truthiness of an optional numeric value: `not x` is true when
the value is absent (`None`) or equal to zero. -/
def pyFalsy : Option ℚ → Bool
  | none => true
  | some v => v == 0

/-- The candidate filter of `PhotoDiscovery.discover` (lines 40-42):
`("jpg" in ext or "jpeg" in ext) and "thumb" not in file_name.lower()`. -/
def photoNameFilter (n : Name) : Bool :=
  let fe := splitext n
  (isSubstring "jpg".toList fe.2 || isSubstring "jpeg".toList fe.2) &&
    !(isSubstring "thumb".toList (lowerName fe.1))

/-- The candidate filter of `VideoDiscoverer.discover` (lines 105-106):
`"mp4" in file_extension`. -/
def videoNameFilter (n : Name) : Bool :=
  isSubstring "mp4".toList (splitext n).2

/-- `photos.sort(key=lambda p: int("".join(filter(str.isdigit,
os.path.basename(p.path)))))` generically over the record type: Python's
stable ascending sort by the digit key, raising (`Except.error`) when any
element's name has no digit. -/
def sortByDigitKey (getPath : α → Name) (l : List α) : Except Unit (List α) :=
  if l.all (fun a => (digitKey (getPath a)).isSome) then
    .ok (l.mergeSort (fun a b =>
      (digitKey (getPath a)).getD 0 ≤ (digitKey (getPath b)).getD 0))
  else .error ()

/-- `PhotoDiscovery._photo_from_path` (lines 57-59): plain construction,
always succeeds, no metadata. -/
def PhotoDiscovery.photo_from_path (path : Name) : Option Photo :=
  some { path := path }

/-- `PhotoDiscovery._sort_photo_list` (lines 61-63). -/
def PhotoDiscovery.sort_photo_list (photos : List Photo) :
    Except Unit (List Photo) :=
  sortByDigitKey Photo.path photos

/-- `ExifPhotoDiscoverer._photo_from_path` (lines 69-86): extract tags,
set the mandatory trio, drop the candidate (`return None`) if any of the
three is falsy, then set the optional fields. -/
def ExifPhotoDiscoverer.photo_from_path (ex : ExifProcessing T) (path : Name) :
    Option Photo :=
  let tags_data := ex.all_tags path
  let photo : Photo :=
    { path := path
      gps_timestamp := ex.gps_timestamp tags_data
      latitude := ex.gps_latitude tags_data
      longitude := ex.gps_longitude tags_data }
  if pyFalsy photo.latitude || pyFalsy photo.longitude ||
      pyFalsy photo.gps_timestamp then
    none
  else
    some { photo with
      exif_timestamp := ex.timestamp tags_data
      gps_speed := ex.gps_speed tags_data
      gps_altitude := ex.gps_altitude tags_data
      gps_compass := ex.gps_compass tags_data }

/-- `ExifPhotoDiscoverer._sort_photo_list` (lines 88-90): stable ascending
sort by `gps_timestamp`.  Every photo this is applied to has a present
timestamp (the builder guarantees it), so the `getD` default is never
consulted in `discover`. -/
def ExifPhotoDiscoverer.sort_photo_list (photos : List Photo) :
    Except Unit (List Photo) :=
  .ok (photos.mergeSort (fun p q =>
    p.gps_timestamp.getD 0 ≤ q.gps_timestamp.getD 0))

/-- Index assignment loop of `discover` (lines 49-52 and 110-113),
generically: `index = 0; for r in rs: r.index = index; index += 1`. -/
def assignIndices (setIndex : Nat → α → α) (l : List α) : List α :=
  l.enum.map (fun ia => setIndex ia.1 ia.2)

/-- The shared body of `PhotoDiscovery.discover` (lines 29-54),
parametrised by the two overridable classmethods (`_photo_from_path` and
`_sort_photo_list`), exactly as the subclass `ExifPhotoDiscoverer`
overrides them. -/
def photoDiscoverWith (builder : Name → Option Photo)
    (sorter : List Photo → Except Unit (List Photo))
    (path : Name) (dirState : Option (List Name)) :
    Except Unit (List Photo × String) :=
  match dirState with
  | none => .ok ([], "photo")
  | some files =>
    let photos := files.filterMap (fun file_path =>
      if photoNameFilter file_path then builder (joinPath path file_path)
      else none)
    match sorter photos with
    | .error e => .error e
    | .ok sorted =>
      .ok (assignIndices (fun i p => { p with index := i }) sorted, "photo")

/-- `PhotoDiscovery.discover` (lines 29-54). -/
def PhotoDiscovery.discover (path : Name) (dirState : Option (List Name)) :
    Except Unit (List Photo × String) :=
  photoDiscoverWith PhotoDiscovery.photo_from_path
    PhotoDiscovery.sort_photo_list path dirState

/-- `ExifPhotoDiscoverer.discover`: inherited body with the overridden
builder and comparator. -/
def ExifPhotoDiscoverer.discover (ex : ExifProcessing T) (path : Name)
    (dirState : Option (List Name)) : Except Unit (List Photo × String) :=
  photoDiscoverWith (ExifPhotoDiscoverer.photo_from_path ex)
    ExifPhotoDiscoverer.sort_photo_list path dirState

/-- `VideoDiscoverer.discover` (lines 96-115). -/
def VideoDiscoverer.discover (path : Name) (dirState : Option (List Name)) :
    Except Unit (List Video × String) :=
  match dirState with
  | none => .ok ([], "video")
  | some files =>
    let videos := files.filterMap (fun file_path =>
      if videoNameFilter file_path then
        some (Video.mk (joinPath path file_path) 0)
      else none)
    match sortByDigitKey Video.path videos with
    | .error e => .error e
    | .ok sorted =>
      .ok (assignIndices (fun i v => { v with index := i }) sorted, "video")

/-- A directory entry as the filesystem holds it: a name together with
whether the entry is a regular file.  `os.listdir` reports the names of
all entries regardless of kind. -/
structure DirEntry where
  name : Name
  is_file : Bool
deriving DecidableEq, Repr

/-- `os.listdir` on an explicit entry list: the names, in listing order,
of every entry — files and subdirectories alike. -/
def listdir (entries : List DirEntry) : List Name := entries.map DirEntry.name

end VDD

namespace VDD

/-! ### Helper lemmas about paths -/

theorem takeWhile_ne_append (l r : Name) (hl : '/' ∉ l) :
    (l ++ '/' :: r).takeWhile (· ≠ '/') = l := by
  induction l with
  | nil =>
    rw [List.nil_append, List.takeWhile_cons, if_neg (by simp)]
  | cons c cs ih =>
    have hc : c ≠ '/' := fun h => hl (h ▸ List.mem_cons_self c cs)
    have hcs : '/' ∉ cs := fun h => hl (List.mem_cons_of_mem c h)
    rw [List.cons_append, List.takeWhile_cons, if_pos (by simpa using hc),
      ih hcs]

theorem takeWhile_ne_self (l : Name) (hl : '/' ∉ l) :
    l.takeWhile (· ≠ '/') = l := by
  induction l with
  | nil => rfl
  | cons c cs ih =>
    have hc : c ≠ '/' := fun h => hl (h ▸ List.mem_cons_self c cs)
    have hcs : '/' ∉ cs := fun h => hl (List.mem_cons_of_mem c h)
    rw [List.takeWhile_cons, if_pos (by simpa using hc), ih hcs]

theorem basename_no_sep (n : Name) (hn : '/' ∉ n) : basename n = n := by
  unfold basename
  rw [takeWhile_ne_self _ (by simpa using hn), List.reverse_reverse]

theorem basename_append_sep (d n : Name) (hn : '/' ∉ n) :
    basename (d ++ '/' :: n) = n := by
  unfold basename
  rw [List.reverse_append, List.reverse_cons, List.append_assoc,
    List.singleton_append, takeWhile_ne_append _ _ (by simpa using hn),
    List.reverse_reverse]

theorem basename_joinPath (d n : Name) (hn : '/' ∉ n) :
    basename (joinPath d n) = n := by
  unfold joinPath
  by_cases h1 : n.head? = some '/'
  · exact absurd (List.mem_of_mem_head? h1) hn
  · simp only [h1, if_false]
    by_cases h2 : d = []
    · simp [h2, basename_no_sep n hn]
    · simp only [h2, if_false]
      by_cases h3 : d.getLast? = some '/'
      · simp only [h3, if_pos rfl]
        obtain ⟨d', hd'⟩ : ∃ d', d = d' ++ ['/'] :=
          ⟨d.dropLast, by
            conv_lhs => rw [← List.dropLast_append_getLast h2]
            rw [List.getLast?_eq_getLast d h2] at h3
            simp at h3
            rw [h3]⟩
        rw [hd', List.append_assoc, List.singleton_append]
        exact basename_append_sep d' n hn
      · simp only [h3, if_false]
        exact basename_append_sep d n hn

theorem digitKey_joinPath (d n : Name) (hn : '/' ∉ n) :
    digitKey (joinPath d n) = digitKey n := by
  unfold digitKey
  rw [basename_joinPath d n hn, basename_no_sep n hn]

theorem joinPath_inj (d : Name) {n m : Name} (hn : '/' ∉ n) (hm : '/' ∉ m)
    (h : joinPath d n = joinPath d m) : n = m := by
  have := basename_joinPath d n hn
  rw [h, basename_joinPath d m hm] at this
  exact this.symm

/-! ### Helper lemmas about the discovery pipeline -/

/-- The candidate records built by the loop of `photoDiscoverWith`. -/
def candidatePhotos (builder : Name → Option Photo) (path : Name)
    (files : List Name) : List Photo :=
  files.filterMap (fun file_path =>
    if photoNameFilter file_path then builder (joinPath path file_path)
    else none)

/-- The candidate records built by the loop of `VideoDiscoverer.discover`. -/
def candidateVideos (path : Name) (files : List Name) : List Video :=
  files.filterMap (fun file_path =>
    if videoNameFilter file_path then
      some (Video.mk (joinPath path file_path) 0)
    else none)

theorem candidatePhotos_plain (path : Name) (files : List Name) :
    candidatePhotos PhotoDiscovery.photo_from_path path files =
      (files.filter photoNameFilter).map
        (fun n => { path := joinPath path n : Photo }) := by
  induction files with
  | nil => rfl
  | cons f fs ih =>
    by_cases h : photoNameFilter f <;>
      simp [candidatePhotos, List.filterMap_cons, List.filter_cons, h,
        PhotoDiscovery.photo_from_path, candidatePhotos] at ih ⊢ <;>
      exact ih

theorem candidateVideos_eq (path : Name) (files : List Name) :
    candidateVideos path files =
      (files.filter videoNameFilter).map
        (fun n => Video.mk (joinPath path n) 0) := by
  induction files with
  | nil => rfl
  | cons f fs ih =>
    by_cases h : videoNameFilter f <;>
      simp [candidateVideos, List.filterMap_cons, List.filter_cons, h] at ih ⊢ <;>
      exact ih

theorem photoDiscoverWith_some (builder : Name → Option Photo)
    (sorter : List Photo → Except Unit (List Photo)) (path : Name)
    (files : List Name) :
    photoDiscoverWith builder sorter path (some files) =
      match sorter (candidatePhotos builder path files) with
      | .error e => .error e
      | .ok sorted =>
        .ok (assignIndices (fun i p => { p with index := i }) sorted,
          "photo") := rfl

theorem videoDiscover_some (path : Name) (files : List Name) :
    VideoDiscoverer.discover path (some files) =
      match sortByDigitKey Video.path (candidateVideos path files) with
      | .error e => .error e
      | .ok sorted =>
        .ok (assignIndices (fun i v => { v with index := i }) sorted,
          "video") := rfl

theorem sortByDigitKey_ok (getPath : α → Name) (l : List α)
    (h : ∀ a ∈ l, (digitKey (getPath a)).isSome) :
    sortByDigitKey getPath l =
      .ok (l.mergeSort (fun a b =>
        (digitKey (getPath a)).getD 0 ≤ (digitKey (getPath b)).getD 0)) := by
  unfold sortByDigitKey
  rw [if_pos]
  rw [List.all_eq_true]
  intro a ha
  simpa using h a ha

theorem assignIndices_map (f : Nat → α → α) (g : α → β) (l : List α)
    (hg : ∀ i a, g (f i a) = g a) :
    (assignIndices f l).map g = l.map g := by
  unfold assignIndices
  rw [List.map_map]
  have : (g ∘ fun ia : Nat × α => f ia.1 ia.2) = g ∘ Prod.snd := by
    funext ia
    exact hg ia.1 ia.2
  rw [this, ← List.map_map, List.enum_map_snd]

theorem assignIndices_map_index (f : Nat → α → α) (idx : α → Nat) (l : List α)
    (hf : ∀ i a, idx (f i a) = i) :
    (assignIndices f l).map idx = List.range l.length := by
  unfold assignIndices
  rw [List.map_map]
  have : (idx ∘ fun ia : Nat × α => f ia.1 ia.2) = Prod.fst := by
    funext ia
    exact hf ia.1 ia.2
  rw [this, List.enum_map_fst]

theorem assignIndices_length (f : Nat → α → α) (l : List α) :
    (assignIndices f l).length = l.length := by
  unfold assignIndices
  rw [List.length_map, List.enum_length]

theorem decideLe_trans {β : Type} [LinearOrder β] (k : α → β) (a b c : α) :
    decide (k a ≤ k b) = true → decide (k b ≤ k c) = true →
      decide (k a ≤ k c) = true := by
  simp only [decide_eq_true_eq]
  exact le_trans

theorem decideLe_total {β : Type} [LinearOrder β] (k : α → β) (a b : α) :
    (decide (k a ≤ k b) || decide (k b ≤ k a)) = true := by
  simp only [Bool.or_eq_true, decide_eq_true_eq]
  exact le_total _ _

end VDD

namespace VDD

/-! ### The EXIF builder as an explicit conditional -/

theorem exif_photo_from_path_eq (ex : ExifProcessing T) (p : Name) :
    ExifPhotoDiscoverer.photo_from_path ex p =
      if pyFalsy (ex.gps_latitude (ex.all_tags p)) ||
          pyFalsy (ex.gps_longitude (ex.all_tags p)) ||
          pyFalsy (ex.gps_timestamp (ex.all_tags p)) then
        none
      else
        some { path := p
               index := 0
               exif_timestamp := ex.timestamp (ex.all_tags p)
               gps_timestamp := ex.gps_timestamp (ex.all_tags p)
               latitude := ex.gps_latitude (ex.all_tags p)
               longitude := ex.gps_longitude (ex.all_tags p)
               gps_speed := ex.gps_speed (ex.all_tags p)
               gps_altitude := ex.gps_altitude (ex.all_tags p)
               gps_compass := ex.gps_compass (ex.all_tags p) } := rfl

theorem pyFalsy_eq_false_iff (v : Option ℚ) :
    pyFalsy v = false ↔ ∃ x, v = some x ∧ x ≠ 0 := by
  cases v with
  | none => simp [pyFalsy]
  | some x => simp [pyFalsy, beq_eq_false_iff_ne]

theorem pyFalsy_eq_true_iff (v : Option ℚ) :
    pyFalsy v = true ↔ v = none ∨ v = some 0 := by
  cases v with
  | none => simp [pyFalsy]
  | some x =>
    simp only [pyFalsy, beq_iff_eq, Option.some.injEq]
    constructor
    · intro h
      exact Or.inr h
    · rintro (h | h)
      · cases h
      · exact h

/-- A concrete extractor whose GPS latitude derivation is present but zero
while timestamp and longitude are present and nonzero. -/
def exZeroLat : ExifProcessing Unit :=
  { all_tags := fun _ => ()
    timestamp := fun _ => none
    gps_timestamp := fun _ => some 7
    gps_latitude := fun _ => some 0
    gps_longitude := fun _ => some 3
    gps_speed := fun _ => none
    gps_altitude := fun _ => none
    gps_compass := fun _ => none }

/-- A concrete extractor with all three mandatory derivations present and
nonzero and every optional derivation absent. -/
def exAllPresent : ExifProcessing Unit :=
  { all_tags := fun _ => ()
    timestamp := fun _ => none
    gps_timestamp := fun _ => some 7
    gps_latitude := fun _ => some 2
    gps_longitude := fun _ => some 3
    gps_speed := fun _ => none
    gps_altitude := fun _ => none
    gps_compass := fun _ => none }

/-- C1, counterexample.  The claim's "if" direction fails on the code: an
extractor can yield all three mandatory derivations present (GPS latitude
present but equal to 0, timestamp and longitude present and nonzero), yet
the builder returns no record, because the source tests Python truthiness
(`not photo.latitude`), not presence. -/
theorem C1_counterexample :
    (exZeroLat.gps_timestamp (exZeroLat.all_tags "p.jpg".toList)).isSome
        = true ∧
    (exZeroLat.gps_latitude (exZeroLat.all_tags "p.jpg".toList)).isSome
        = true ∧
    (exZeroLat.gps_longitude (exZeroLat.all_tags "p.jpg".toList)).isSome
        = true ∧
    ExifPhotoDiscoverer.photo_from_path exZeroLat "p.jpg".toList = none := by
  refine ⟨rfl, rfl, rfl, ?_⟩
  rw [exif_photo_from_path_eq]
  rw [if_pos]
  decide

/-- C1, amended.  The metadata-validated builder returns a record if and
only if each of the three mandatory derivations (GPS timestamp, latitude,
longitude) is present *and nonzero*; in particular absence of any of the
trio drops the candidate, while the optional derivations (exif timestamp,
speed, altitude, compass) never influence whether a record is returned. -/
theorem C1_amended_builder_iff (T : Type) (ex : ExifProcessing T) (p : Name) :
    (ExifPhotoDiscoverer.photo_from_path ex p).isSome = true ↔
      ((∃ t, ex.gps_timestamp (ex.all_tags p) = some t ∧ t ≠ 0) ∧
       (∃ a, ex.gps_latitude (ex.all_tags p) = some a ∧ a ≠ 0) ∧
       (∃ o, ex.gps_longitude (ex.all_tags p) = some o ∧ o ≠ 0)) := by
  rw [exif_photo_from_path_eq]
  by_cases h : (pyFalsy (ex.gps_latitude (ex.all_tags p)) ||
      pyFalsy (ex.gps_longitude (ex.all_tags p)) ||
      pyFalsy (ex.gps_timestamp (ex.all_tags p))) = true
  · rw [if_pos h]
    simp only [Option.isSome_none, Bool.false_eq_true, false_iff]
    rintro ⟨⟨t, ht, ht0⟩, ⟨a, ha, ha0⟩, ⟨o, ho, ho0⟩⟩
    rcases Bool.or_eq_true_iff.mp h with h' | hts
    · rcases Bool.or_eq_true_iff.mp h' with hla | hlo
      · rcases (pyFalsy_eq_true_iff _).mp hla with h0 | h0 <;>
          rw [ha] at h0 <;> simp at h0
        exact ha0 h0
      · rcases (pyFalsy_eq_true_iff _).mp hlo with h0 | h0 <;>
          rw [ho] at h0 <;> simp at h0
        exact ho0 h0
    · rcases (pyFalsy_eq_true_iff _).mp hts with h0 | h0 <;>
        rw [ht] at h0 <;> simp at h0
      exact ht0 h0
  · rw [if_neg h]
    simp only [Option.isSome_some, true_iff]
    rw [Bool.or_eq_true_iff, Bool.or_eq_true_iff] at h
    push_neg at h
    obtain ⟨⟨hla, hlo⟩, hts⟩ := h
    refine ⟨?_, ?_, ?_⟩
    · exact (pyFalsy_eq_false_iff _).mp (Bool.not_eq_true _ ▸ hts)
    · exact (pyFalsy_eq_false_iff _).mp (Bool.not_eq_true _ ▸ hla)
    · exact (pyFalsy_eq_false_iff _).mp (Bool.not_eq_true _ ▸ hlo)

/-- C9.  The mandatory-trio check is a truthiness test: a candidate whose
GPS latitude, longitude or timestamp derivation is present but equal to
zero is dropped, exactly as when the derivation is absent — in every such
case the builder returns no record. -/
theorem C9_falsy_mandatory_drops (T : Type) (ex : ExifProcessing T) (p : Name)
    (h : ex.gps_latitude (ex.all_tags p) = some 0 ∨
         ex.gps_longitude (ex.all_tags p) = some 0 ∨
         ex.gps_timestamp (ex.all_tags p) = some 0 ∨
         ex.gps_latitude (ex.all_tags p) = none ∨
         ex.gps_longitude (ex.all_tags p) = none ∨
         ex.gps_timestamp (ex.all_tags p) = none) :
    ExifPhotoDiscoverer.photo_from_path ex p = none := by
  rw [exif_photo_from_path_eq, if_pos]
  rcases h with h | h | h | h | h | h <;>
    rw [Bool.or_eq_true_iff, Bool.or_eq_true_iff] <;>
    rw [pyFalsy_eq_true_iff, pyFalsy_eq_true_iff, pyFalsy_eq_true_iff] <;>
    simp [h]

/-- C9, witness at the zero-latitude extractor. -/
theorem C9_witness :
    (exZeroLat.gps_latitude (exZeroLat.all_tags "p.jpg".toList) = some 0 ∨
     exZeroLat.gps_longitude (exZeroLat.all_tags "p.jpg".toList) = some 0 ∨
     exZeroLat.gps_timestamp (exZeroLat.all_tags "p.jpg".toList) = some 0 ∨
     exZeroLat.gps_latitude (exZeroLat.all_tags "p.jpg".toList) = none ∨
     exZeroLat.gps_longitude (exZeroLat.all_tags "p.jpg".toList) = none ∨
     exZeroLat.gps_timestamp (exZeroLat.all_tags "p.jpg".toList) = none) ∧
    ExifPhotoDiscoverer.photo_from_path exZeroLat "p.jpg".toList = none :=
  ⟨Or.inl rfl,
   C9_falsy_mandatory_drops Unit exZeroLat "p.jpg".toList (Or.inl rfl)⟩

/-- C3.  When the path does not denote an existing directory, every
discoverer returns the empty list paired with its type tag, raising no
error. -/
theorem C3_not_a_directory (T : Type) (ex : ExifProcessing T) (d : Name) :
    PhotoDiscovery.discover d none = .ok ([], "photo") ∧
    ExifPhotoDiscoverer.discover ex d none = .ok ([], "photo") ∧
    VideoDiscoverer.discover d none = .ok ([], "video") :=
  ⟨rfl, rfl, rfl⟩

end VDD

namespace VDD

/-! ### Ok-shape lemmas for discovery results -/

theorem photoDiscoverWith_ok_shape (builder : Name → Option Photo)
    (sorter : List Photo → Except Unit (List Photo)) (d : Name)
    (files : List Name) (ps : List Photo) (tag : String)
    (h : photoDiscoverWith builder sorter d (some files) = .ok (ps, tag)) :
    ∃ sorted, sorter (candidatePhotos builder d files) = .ok sorted ∧
      ps = assignIndices (fun i p => { p with index := i }) sorted ∧
      tag = "photo" := by
  rw [photoDiscoverWith_some] at h
  split at h
  · cases h
  · rename_i sorted hs
    refine ⟨sorted, hs, ?_, ?_⟩
    · cases h
      rfl
    · cases h
      rfl

theorem videoDiscover_ok_shape (d : Name) (files : List Name)
    (vs : List Video) (tag : String)
    (h : VideoDiscoverer.discover d (some files) = .ok (vs, tag)) :
    ∃ sorted, sortByDigitKey Video.path (candidateVideos d files) = .ok sorted ∧
      vs = assignIndices (fun i v => { v with index := i }) sorted ∧
      tag = "video" := by
  rw [videoDiscover_some] at h
  split at h
  · cases h
  · rename_i sorted hs
    refine ⟨sorted, hs, ?_, ?_⟩
    · cases h
      rfl
    · cases h
      rfl

/-- C6.  Whenever a discovery call returns records, their `index` fields
are exactly `0, 1, ..., N-1` in final order: mapping `index` over the
result yields `List.range N` — contiguous from 0, no gaps, no duplicates,
index 0 on the first record. -/
theorem C6_indices_contiguous (T : Type) (ex : ExifProcessing T) (d : Name)
    (s : Option (List Name)) :
    (∀ ps tag, PhotoDiscovery.discover d s = .ok (ps, tag) →
      ps.map Photo.index = List.range ps.length) ∧
    (∀ ps tag, ExifPhotoDiscoverer.discover ex d s = .ok (ps, tag) →
      ps.map Photo.index = List.range ps.length) ∧
    (∀ vs tag, VideoDiscoverer.discover d s = .ok (vs, tag) →
      vs.map Video.index = List.range vs.length) := by
  have photoCase : ∀ (builder : Name → Option Photo)
      (sorter : List Photo → Except Unit (List Photo)) ps tag,
      photoDiscoverWith builder sorter d s = .ok (ps, tag) →
      ps.map Photo.index = List.range ps.length := by
    intro builder sorter ps tag h
    cases s with
    | none =>
      cases h
      rfl
    | some files =>
      obtain ⟨sorted, -, rfl, -⟩ :=
        photoDiscoverWith_ok_shape builder sorter d files ps tag h
      rw [assignIndices_map_index _ Photo.index _ (fun i a => rfl),
        assignIndices_length]
  refine ⟨fun ps tag h => photoCase _ _ ps tag h,
    fun ps tag h => photoCase _ _ ps tag h, ?_⟩
  intro vs tag h
  cases s with
  | none =>
    cases h
    rfl
  | some files =>
    obtain ⟨sorted, -, rfl, -⟩ := videoDiscover_ok_shape d files vs tag h
    rw [assignIndices_map_index _ Video.index _ (fun i a => rfl),
      assignIndices_length]

/-- C6, witness: indices of a three-file plain photo discovery. -/
theorem C6_witness :
    PhotoDiscovery.discover "d".toList
        (some ["img_2.jpg".toList, "img_10.jpg".toList, "img_1.jpg".toList])
      = .ok ([{ path := "d/img_1.jpg".toList, index := 0 },
              { path := "d/img_2.jpg".toList, index := 1 },
              { path := "d/img_10.jpg".toList, index := 2 }], "photo") ∧
    ([{ path := "d/img_1.jpg".toList, index := 0 },
      { path := "d/img_2.jpg".toList, index := 1 },
      { path := "d/img_10.jpg".toList, index := 2 }] : List Photo).map
        Photo.index =
      List.range ([{ path := "d/img_1.jpg".toList, index := 0 },
                   { path := "d/img_2.jpg".toList, index := 1 },
                   { path := "d/img_10.jpg".toList, index := 2 }] :
        List Photo).length := by
  have h : PhotoDiscovery.discover "d".toList
      (some ["img_2.jpg".toList, "img_10.jpg".toList, "img_1.jpg".toList])
      = .ok ([{ path := "d/img_1.jpg".toList, index := 0 },
              { path := "d/img_2.jpg".toList, index := 1 },
              { path := "d/img_10.jpg".toList, index := 2 }], "photo") := by
    rw [PhotoDiscovery.discover, photoDiscoverWith_some,
      show PhotoDiscovery.sort_photo_list
          (candidatePhotos PhotoDiscovery.photo_from_path "d".toList
            ["img_2.jpg".toList, "img_10.jpg".toList, "img_1.jpg".toList]) =
        sortByDigitKey Photo.path
          (candidatePhotos PhotoDiscovery.photo_from_path "d".toList
            ["img_2.jpg".toList, "img_10.jpg".toList, "img_1.jpg".toList])
        from rfl,
      sortByDigitKey_ok _ _ (by decide),
      show candidatePhotos PhotoDiscovery.photo_from_path "d".toList
          ["img_2.jpg".toList, "img_10.jpg".toList, "img_1.jpg".toList] =
        [{ path := "d/img_2.jpg".toList },
         { path := "d/img_10.jpg".toList },
         { path := "d/img_1.jpg".toList }] from rfl]
    simp +decide only [List.mergeSort, List.merge, List.splitInTwo,
      List.splitAt, List.splitAt.go, List.reverse_cons, List.reverse_nil,
      List.nil_append, List.cons_append, List.length_cons, List.length_nil,
      if_true, if_false]
    rfl
  exact ⟨h, (C6_indices_contiguous Unit exAllPresent "d".toList
    (some ["img_2.jpg".toList, "img_10.jpg".toList, "img_1.jpg".toList])).1
    _ "photo" h⟩

end VDD

namespace VDD

/-! ### Digit keys of surviving candidates -/

theorem plain_candidates_keys (d : Name) (L : List Name)
    (hn : ∀ n ∈ L, '/' ∉ n)
    (hp : ∀ n ∈ L, photoNameFilter n = true → (digitKey n).isSome = true) :
    ∀ a ∈ candidatePhotos PhotoDiscovery.photo_from_path d L,
      (digitKey (Photo.path a)).isSome = true := by
  intro a ha
  rw [candidatePhotos_plain] at ha
  obtain ⟨n, hn', rfl⟩ := List.mem_map.mp ha
  have hnL := List.mem_of_mem_filter hn'
  have hf := List.of_mem_filter hn'
  show (digitKey (joinPath d n)).isSome = true
  rw [digitKey_joinPath d n (hn n hnL)]
  exact hp n hnL hf

theorem video_candidates_keys (d : Name) (L : List Name)
    (hn : ∀ n ∈ L, '/' ∉ n)
    (hv : ∀ n ∈ L, videoNameFilter n = true → (digitKey n).isSome = true) :
    ∀ a ∈ candidateVideos d L, (digitKey (Video.path a)).isSome = true := by
  intro a ha
  rw [candidateVideos_eq] at ha
  obtain ⟨n, hn', rfl⟩ := List.mem_map.mp ha
  have hnL := List.mem_of_mem_filter hn'
  have hf := List.of_mem_filter hn'
  show (digitKey (joinPath d n)).isSome = true
  rw [digitKey_joinPath d n (hn n hnL)]
  exact hv n hnL hf

/-- C7, counterexample.  An exception does escape discovery on account of
a single bad file: a directory containing only `x.jpg` (a candidate whose
name has no digit character) makes the plain photo sort key evaluate
`int("")`, and the `ValueError` (modelled `Except.error`) escapes the
whole `discover` call. -/
theorem C7_counterexample :
    PhotoDiscovery.discover "d".toList (some ["x.jpg".toList])
      = .error () := by rfl

/-- C7, amended.  A plain photo or video discovery call over a listed
directory completes without an escaping exception provided every
candidate filename contains at least one digit character; a digitless
candidate filename makes the digit-concatenation key raise, and that
error escapes the call.  Metadata-validated discovery completes for every
listed directory, digitless names included: its comparator never consults
the digit key. -/
theorem C7_amended_completes (T : Type) (ex : ExifProcessing T) (d : Name)
    (L : List Name) (hn : ∀ n ∈ L, '/' ∉ n)
    (hp : ∀ n ∈ L, photoNameFilter n = true → (digitKey n).isSome = true)
    (hv : ∀ n ∈ L, videoNameFilter n = true → (digitKey n).isSome = true) :
    (∃ r, PhotoDiscovery.discover d (some L) = .ok r) ∧
    (∃ r, VideoDiscoverer.discover d (some L) = .ok r) ∧
    (∀ M : List Name, ∃ r, ExifPhotoDiscoverer.discover ex d (some M) = .ok r) := by
  refine ⟨?_, ?_, ?_⟩
  · rw [PhotoDiscovery.discover, photoDiscoverWith_some]
    rw [show PhotoDiscovery.sort_photo_list
        (candidatePhotos PhotoDiscovery.photo_from_path d L) =
        sortByDigitKey Photo.path
          (candidatePhotos PhotoDiscovery.photo_from_path d L) from rfl]
    rw [sortByDigitKey_ok _ _ (plain_candidates_keys d L hn hp)]
    exact ⟨_, rfl⟩
  · rw [videoDiscover_some]
    rw [sortByDigitKey_ok _ _ (video_candidates_keys d L hn hv)]
    exact ⟨_, rfl⟩
  · intro M
    rw [ExifPhotoDiscoverer.discover, photoDiscoverWith_some]
    exact ⟨_, rfl⟩

/-- C7, witness: a digit-named directory completes under the plain
policies, and metadata-validated discovery completes for every listing —
in particular for the digitless counterexample directory `["x.jpg"]`. -/
theorem C7_witness :
    ((∀ n ∈ ["img_2.jpg".toList, "img_10.jpg".toList], '/' ∉ n) ∧
     (∀ n ∈ ["img_2.jpg".toList, "img_10.jpg".toList],
        photoNameFilter n = true → (digitKey n).isSome = true) ∧
     (∀ n ∈ ["img_2.jpg".toList, "img_10.jpg".toList],
        videoNameFilter n = true → (digitKey n).isSome = true)) ∧
    ((∃ r, PhotoDiscovery.discover "d".toList
        (some ["img_2.jpg".toList, "img_10.jpg".toList]) = .ok r) ∧
     (∃ r, VideoDiscoverer.discover "d".toList
        (some ["img_2.jpg".toList, "img_10.jpg".toList]) = .ok r) ∧
     (∀ M : List Name, ∃ r, ExifPhotoDiscoverer.discover exAllPresent
        "d".toList (some M) = .ok r)) ∧
    (∃ r, ExifPhotoDiscoverer.discover exAllPresent "d".toList
      (some ["x.jpg".toList]) = .ok r) :=
  ⟨⟨by decide, by decide, by decide⟩,
   C7_amended_completes Unit exAllPresent "d".toList
     ["img_2.jpg".toList, "img_10.jpg".toList]
     (by decide) (by decide) (by decide),
   (C7_amended_completes Unit exAllPresent "d".toList
     ["img_2.jpg".toList, "img_10.jpg".toList]
     (by decide) (by decide) (by decide)).2.2 ["x.jpg".toList]⟩

/-- C8.  Discovery is deterministic and stateless: its output is entirely
a function of the directory state and the extractor's derived values per
path.  Two extractors (over possibly different tag types) that agree on
every derived accessor value at every path produce identical
metadata-validated results, and the plain photo and video policies are
pure functions of the directory state alone, so re-running discovery on
an unchanged state reproduces the same ordered, indexed records. -/
theorem C8_deterministic (T₁ T₂ : Type) (ex₁ : ExifProcessing T₁)
    (ex₂ : ExifProcessing T₂) (d : Name) (s : Option (List Name))
    (h : ∀ p : Name,
      ex₁.timestamp (ex₁.all_tags p) = ex₂.timestamp (ex₂.all_tags p) ∧
      ex₁.gps_timestamp (ex₁.all_tags p) = ex₂.gps_timestamp (ex₂.all_tags p) ∧
      ex₁.gps_latitude (ex₁.all_tags p) = ex₂.gps_latitude (ex₂.all_tags p) ∧
      ex₁.gps_longitude (ex₁.all_tags p) = ex₂.gps_longitude (ex₂.all_tags p) ∧
      ex₁.gps_speed (ex₁.all_tags p) = ex₂.gps_speed (ex₂.all_tags p) ∧
      ex₁.gps_altitude (ex₁.all_tags p) = ex₂.gps_altitude (ex₂.all_tags p) ∧
      ex₁.gps_compass (ex₁.all_tags p) = ex₂.gps_compass (ex₂.all_tags p)) :
    ExifPhotoDiscoverer.discover ex₁ d s = ExifPhotoDiscoverer.discover ex₂ d s ∧
    PhotoDiscovery.discover d s = PhotoDiscovery.discover d s ∧
    VideoDiscoverer.discover d s = VideoDiscoverer.discover d s := by
  refine ⟨?_, rfl, rfl⟩
  have hb : ExifPhotoDiscoverer.photo_from_path ex₁ =
      ExifPhotoDiscoverer.photo_from_path ex₂ := by
    funext p
    rw [exif_photo_from_path_eq, exif_photo_from_path_eq]
    obtain ⟨h1, h2, h3, h4, h5, h6, h7⟩ := h p
    rw [h1, h2, h3, h4, h5, h6, h7]
  rw [ExifPhotoDiscoverer.discover, ExifPhotoDiscoverer.discover, hb]

/-- A second concrete extractor, over a different tag type than
`exAllPresent` but with identical derived values at every path. -/
def exAllPresentPathTags : ExifProcessing Name :=
  { all_tags := fun p => p
    timestamp := fun _ => none
    gps_timestamp := fun _ => some 7
    gps_latitude := fun _ => some 2
    gps_longitude := fun _ => some 3
    gps_speed := fun _ => none
    gps_altitude := fun _ => none
    gps_compass := fun _ => none }

/-- C8, witness: two structurally different extractors agreeing on all
derived values give identical discovery output on a concrete directory. -/
theorem C8_witness :
    (∀ p : Name,
      exAllPresent.timestamp (exAllPresent.all_tags p) =
        exAllPresentPathTags.timestamp (exAllPresentPathTags.all_tags p) ∧
      exAllPresent.gps_timestamp (exAllPresent.all_tags p) =
        exAllPresentPathTags.gps_timestamp (exAllPresentPathTags.all_tags p) ∧
      exAllPresent.gps_latitude (exAllPresent.all_tags p) =
        exAllPresentPathTags.gps_latitude (exAllPresentPathTags.all_tags p) ∧
      exAllPresent.gps_longitude (exAllPresent.all_tags p) =
        exAllPresentPathTags.gps_longitude (exAllPresentPathTags.all_tags p) ∧
      exAllPresent.gps_speed (exAllPresent.all_tags p) =
        exAllPresentPathTags.gps_speed (exAllPresentPathTags.all_tags p) ∧
      exAllPresent.gps_altitude (exAllPresent.all_tags p) =
        exAllPresentPathTags.gps_altitude (exAllPresentPathTags.all_tags p) ∧
      exAllPresent.gps_compass (exAllPresent.all_tags p) =
        exAllPresentPathTags.gps_compass (exAllPresentPathTags.all_tags p)) ∧
    ExifPhotoDiscoverer.discover exAllPresent "d".toList
        (some ["img_1.jpg".toList]) =
      ExifPhotoDiscoverer.discover exAllPresentPathTags "d".toList
        (some ["img_1.jpg".toList]) :=
  ⟨fun _ => ⟨rfl, rfl, rfl, rfl, rfl, rfl, rfl⟩,
   (C8_deterministic Unit Name exAllPresent exAllPresentPathTags "d".toList
     (some ["img_1.jpg".toList])
     (fun _ => ⟨rfl, rfl, rfl, rfl, rfl, rfl, rfl⟩)).1⟩

end VDD

namespace VDD

/-! ### Sortedness bridges -/

theorem digitKey_getD (x : Name) :
    (digitKey x).getD 0 = digitVal (digitsOf (basename x)) := by
  unfold digitKey
  by_cases h : (digitsOf (basename x)).isEmpty
  · rw [if_pos h, List.isEmpty_iff.mp h]
    rfl
  · rw [if_neg h]
    rfl

theorem pairwise_assignIndices {β : Type _} (f : Nat → α → α) (g : α → β)
    (R : β → β → Prop) (l : List α) (hg : ∀ i a, g (f i a) = g a)
    (h : l.Pairwise (fun a b => R (g a) (g b))) :
    (assignIndices f l).Pairwise (fun a b => R (g a) (g b)) := by
  have h' : (l.map g).Pairwise R := List.Pairwise.map g (fun a b hab => hab) h
  rw [← assignIndices_map f g l hg] at h'
  exact List.Pairwise.of_map g (fun a b hab => hab) h'

theorem perm_map_assignIndices (f : Nat → α → α) (g : α → β) (l : List α)
    (hg : ∀ i a, g (f i a) = g a) (le : α → α → Bool) :
    ((assignIndices f (l.mergeSort le)).map g).Perm (l.map g) := by
  rw [assignIndices_map f g _ hg]
  exact (List.mergeSort_perm l le).map g

theorem candidatePhotos_plain_map_path (d : Name) (L : List Name) :
    (candidatePhotos PhotoDiscovery.photo_from_path d L).map Photo.path =
      (L.filter photoNameFilter).map (joinPath d) := by
  rw [candidatePhotos_plain, List.map_map]
  rfl

theorem candidateVideos_map_path (d : Name) (L : List Name) :
    (candidateVideos d L).map Video.path =
      (L.filter videoNameFilter).map (joinPath d) := by
  rw [candidateVideos_eq, List.map_map]
  rfl

/-- C2.  Plain photo discovery and video discovery both return the
surviving records in ascending order of the integer obtained by
concatenating, in order, the decimal digit characters of the record's
filename (the basename of its path, not the full path); the returned
records are exactly the filtered candidates.  Concretely, a directory
holding `img_2.jpg`, `img_10.jpg`, `img_1.jpg` yields the plain-photo
records in digit-value order 1, 2, 10 with indices 0, 1, 2. -/
theorem C2_digit_sorted (d : Name) (L : List Name)
    (hn : ∀ n ∈ L, '/' ∉ n)
    (hp : ∀ n ∈ L, photoNameFilter n = true → (digitKey n).isSome = true)
    (hv : ∀ n ∈ L, videoNameFilter n = true → (digitKey n).isSome = true) :
    (∃ ps vs,
      PhotoDiscovery.discover d (some L) = .ok (ps, "photo") ∧
      VideoDiscoverer.discover d (some L) = .ok (vs, "video") ∧
      (ps.map Photo.path).Perm ((L.filter photoNameFilter).map (joinPath d)) ∧
      (vs.map Video.path).Perm ((L.filter videoNameFilter).map (joinPath d)) ∧
      ps.Pairwise (fun p q =>
        digitVal (digitsOf (basename p.path)) ≤
          digitVal (digitsOf (basename q.path))) ∧
      vs.Pairwise (fun p q =>
        digitVal (digitsOf (basename p.path)) ≤
          digitVal (digitsOf (basename q.path)))) ∧
    PhotoDiscovery.discover "d".toList
        (some ["img_2.jpg".toList, "img_10.jpg".toList, "img_1.jpg".toList]) =
      .ok ([{ path := "d/img_1.jpg".toList, index := 0 },
            { path := "d/img_2.jpg".toList, index := 1 },
            { path := "d/img_10.jpg".toList, index := 2 }], "photo") := by
  constructor
  · have hps : PhotoDiscovery.discover d (some L) =
        .ok (assignIndices (fun i p => { p with index := i })
          ((candidatePhotos PhotoDiscovery.photo_from_path d L).mergeSort
            (fun a b => (digitKey (Photo.path a)).getD 0 ≤
              (digitKey (Photo.path b)).getD 0)), "photo") := by
      rw [PhotoDiscovery.discover, photoDiscoverWith_some,
        show PhotoDiscovery.sort_photo_list
            (candidatePhotos PhotoDiscovery.photo_from_path d L) =
          sortByDigitKey Photo.path
            (candidatePhotos PhotoDiscovery.photo_from_path d L) from rfl,
        sortByDigitKey_ok _ _ (plain_candidates_keys d L hn hp)]
    have hvs : VideoDiscoverer.discover d (some L) =
        .ok (assignIndices (fun i v => { v with index := i })
          ((candidateVideos d L).mergeSort
            (fun a b => (digitKey (Video.path a)).getD 0 ≤
              (digitKey (Video.path b)).getD 0)), "video") := by
      rw [videoDiscover_some,
        sortByDigitKey_ok _ _ (video_candidates_keys d L hn hv)]
    refine ⟨_, _, hps, hvs, ?_, ?_, ?_, ?_⟩
    · rw [← candidatePhotos_plain_map_path d L]
      exact perm_map_assignIndices (fun i p => { p with index := i })
        Photo.path (candidatePhotos PhotoDiscovery.photo_from_path d L)
        (fun i a => rfl) _
    · rw [← candidateVideos_map_path d L]
      exact perm_map_assignIndices (fun i v => { v with index := i })
        Video.path (candidateVideos d L) (fun i a => rfl) _
    · have hs := @List.sorted_mergeSort Photo
        (fun a b => decide ((digitKey (Photo.path a)).getD 0 ≤
          (digitKey (Photo.path b)).getD 0))
        (fun a b c => decideLe_trans (fun x => (digitKey (Photo.path x)).getD 0) a b c)
        (fun a b => decideLe_total (fun x => (digitKey (Photo.path x)).getD 0) a b)
        (candidatePhotos PhotoDiscovery.photo_from_path d L)
      have hs' := hs.imp (fun hab => by
        rw [digitKey_getD, digitKey_getD] at hab
        exact of_decide_eq_true hab)
      exact pairwise_assignIndices (fun i p => { p with index := i }) Photo.path
        (fun x y => digitVal (digitsOf (basename x)) ≤
          digitVal (digitsOf (basename y))) _ (fun i a => rfl) hs'
    · have hs := @List.sorted_mergeSort Video
        (fun a b => decide ((digitKey (Video.path a)).getD 0 ≤
          (digitKey (Video.path b)).getD 0))
        (fun a b c => decideLe_trans (fun x => (digitKey (Video.path x)).getD 0) a b c)
        (fun a b => decideLe_total (fun x => (digitKey (Video.path x)).getD 0) a b)
        (candidateVideos d L)
      have hs' := hs.imp (fun hab => by
        rw [digitKey_getD, digitKey_getD] at hab
        exact of_decide_eq_true hab)
      exact pairwise_assignIndices (fun i v => { v with index := i }) Video.path
        (fun x y => digitVal (digitsOf (basename x)) ≤
          digitVal (digitsOf (basename y))) _ (fun i a => rfl) hs'
  · rw [PhotoDiscovery.discover, photoDiscoverWith_some,
      show PhotoDiscovery.sort_photo_list
          (candidatePhotos PhotoDiscovery.photo_from_path "d".toList
            ["img_2.jpg".toList, "img_10.jpg".toList, "img_1.jpg".toList]) =
        sortByDigitKey Photo.path
          (candidatePhotos PhotoDiscovery.photo_from_path "d".toList
            ["img_2.jpg".toList, "img_10.jpg".toList, "img_1.jpg".toList])
        from rfl,
      show candidatePhotos PhotoDiscovery.photo_from_path "d".toList
          ["img_2.jpg".toList, "img_10.jpg".toList, "img_1.jpg".toList] =
        [{ path := "d/img_2.jpg".toList },
         { path := "d/img_10.jpg".toList },
         { path := "d/img_1.jpg".toList }] from rfl,
      sortByDigitKey_ok _ _ (by decide)]
    simp +decide only [List.mergeSort, List.merge, List.splitInTwo,
      List.splitAt, List.splitAt.go, List.reverse_cons, List.reverse_nil,
      List.nil_append, List.cons_append, List.length_cons, List.length_nil,
      if_true, if_false]
    rfl

/-- C2, witness at the directory of the claim's concrete example. -/
theorem C2_witness :
    ((∀ n ∈ ["img_2.jpg".toList, "img_10.jpg".toList, "img_1.jpg".toList],
        '/' ∉ n) ∧
     (∀ n ∈ ["img_2.jpg".toList, "img_10.jpg".toList, "img_1.jpg".toList],
        photoNameFilter n = true → (digitKey n).isSome = true) ∧
     (∀ n ∈ ["img_2.jpg".toList, "img_10.jpg".toList, "img_1.jpg".toList],
        videoNameFilter n = true → (digitKey n).isSome = true)) ∧
    (∃ ps vs,
      PhotoDiscovery.discover "d".toList
          (some ["img_2.jpg".toList, "img_10.jpg".toList, "img_1.jpg".toList])
        = .ok (ps, "photo") ∧
      VideoDiscoverer.discover "d".toList
          (some ["img_2.jpg".toList, "img_10.jpg".toList, "img_1.jpg".toList])
        = .ok (vs, "video") ∧
      (ps.map Photo.path).Perm
        (((["img_2.jpg".toList, "img_10.jpg".toList, "img_1.jpg".toList]).filter
          photoNameFilter).map (joinPath "d".toList)) ∧
      (vs.map Video.path).Perm
        (((["img_2.jpg".toList, "img_10.jpg".toList, "img_1.jpg".toList]).filter
          videoNameFilter).map (joinPath "d".toList)) ∧
      ps.Pairwise (fun p q =>
        digitVal (digitsOf (basename p.path)) ≤
          digitVal (digitsOf (basename q.path))) ∧
      vs.Pairwise (fun p q =>
        digitVal (digitsOf (basename p.path)) ≤
          digitVal (digitsOf (basename q.path)))) :=
  ⟨⟨by decide, by decide, by decide⟩,
   (C2_digit_sorted "d".toList
     ["img_2.jpg".toList, "img_10.jpg".toList, "img_1.jpg".toList]
     (by decide) (by decide) (by decide)).1⟩

end VDD

namespace VDD

/-! ### EXIF candidates -/

theorem exif_candidate_mem (ex : ExifProcessing T) (d : Name) (L : List Name)
    (r : Photo)
    (hr : r ∈ candidatePhotos (ExifPhotoDiscoverer.photo_from_path ex) d L) :
    ∃ n ∈ L, photoNameFilter n = true ∧
      ExifPhotoDiscoverer.photo_from_path ex (joinPath d n) = some r := by
  obtain ⟨n, hn, hsome⟩ := List.mem_filterMap.mp hr
  by_cases hf : photoNameFilter n
  · rw [if_pos hf] at hsome
    exact ⟨n, hn, hf, hsome⟩
  · rw [if_neg hf] at hsome
    cases hsome

theorem exif_candidate_index (ex : ExifProcessing T) (d : Name) (L : List Name)
    (r : Photo)
    (hr : r ∈ candidatePhotos (ExifPhotoDiscoverer.photo_from_path ex) d L) :
    r.index = 0 := by
  obtain ⟨n, -, -, hsome⟩ := exif_candidate_mem ex d L r hr
  rw [exif_photo_from_path_eq] at hsome
  by_cases hc : (pyFalsy (ex.gps_latitude (ex.all_tags (joinPath d n))) ||
      pyFalsy (ex.gps_longitude (ex.all_tags (joinPath d n))) ||
      pyFalsy (ex.gps_timestamp (ex.all_tags (joinPath d n)))) = true
  · rw [if_pos hc] at hsome
    cases hsome
  · rw [if_neg hc] at hsome
    cases hsome
    rfl

/-- A concrete extractor whose GPS timestamp depends on the path:
`d/a.jpg` is stamped 1, every other path 2; latitude and longitude are
present and nonzero everywhere. -/
def exStamped : ExifProcessing Name :=
  { all_tags := fun p => p
    timestamp := fun _ => none
    gps_timestamp := fun p => if p = "d/a.jpg".toList then some 1 else some 2
    gps_latitude := fun _ => some 5
    gps_longitude := fun _ => some 6
    gps_speed := fun _ => none
    gps_altitude := fun _ => none
    gps_compass := fun _ => none }

/-- C5.  Metadata-validated photo discovery returns the surviving records
sorted ascending by GPS timestamp, ties broken by stable-sort input
order: the records (up to the index field assigned afterwards) are a
permutation of the surviving candidates, pairwise ordered by timestamp,
and any two candidates already in timestamp order keep their relative
order.  Concretely, a directory listed as `b.jpg, a.jpg` whose extractor
stamps `a.jpg` at 1 and `b.jpg` at 2 yields `[a-record, b-record]` with
indices 0 and 1 despite the reversed listing order. -/
theorem C5_timestamp_sorted (T : Type) (ex : ExifProcessing T) (d : Name)
    (L : List Name) :
    (∃ ps,
      ExifPhotoDiscoverer.discover ex d (some L) = .ok (ps, "photo") ∧
      ps.Pairwise (fun p q =>
        p.gps_timestamp.getD 0 ≤ q.gps_timestamp.getD 0) ∧
      (ps.map (fun r => { r with index := 0 })).Perm
        (candidatePhotos (ExifPhotoDiscoverer.photo_from_path ex) d L) ∧
      (∀ p q : Photo,
        [p, q].Sublist
          (candidatePhotos (ExifPhotoDiscoverer.photo_from_path ex) d L) →
        p.gps_timestamp.getD 0 ≤ q.gps_timestamp.getD 0 →
        [p, q].Sublist (ps.map (fun r => { r with index := 0 })))) ∧
    ExifPhotoDiscoverer.discover exStamped "d".toList
        (some ["b.jpg".toList, "a.jpg".toList]) =
      .ok ([{ path := "d/a.jpg".toList, index := 0, gps_timestamp := some 1,
              latitude := some 5, longitude := some 6 },
            { path := "d/b.jpg".toList, index := 1, gps_timestamp := some 2,
              latitude := some 5, longitude := some 6 }], "photo") := by
  constructor
  · have hok : ExifPhotoDiscoverer.discover ex d (some L) =
        .ok (assignIndices (fun i p => { p with index := i })
          ((candidatePhotos (ExifPhotoDiscoverer.photo_from_path ex) d L).mergeSort
            (fun p q => p.gps_timestamp.getD 0 ≤ q.gps_timestamp.getD 0)),
          "photo") := rfl
    have hreset : (assignIndices (fun i p => { p with index := i })
        ((candidatePhotos (ExifPhotoDiscoverer.photo_from_path ex) d L).mergeSort
          (fun p q => p.gps_timestamp.getD 0 ≤ q.gps_timestamp.getD 0))).map
            (fun r => { r with index := 0 }) =
        (candidatePhotos (ExifPhotoDiscoverer.photo_from_path ex) d L).mergeSort
          (fun p q => p.gps_timestamp.getD 0 ≤ q.gps_timestamp.getD 0) := by
      rw [assignIndices_map (fun i p => ({ p with index := i } : Photo))
        (fun r => ({ r with index := 0 } : Photo))
        ((candidatePhotos (ExifPhotoDiscoverer.photo_from_path ex) d
          L).mergeSort
          (fun p q => p.gps_timestamp.getD 0 ≤ q.gps_timestamp.getD 0))
        (fun i a => rfl)]
      have hid : ∀ r ∈ (candidatePhotos
            (ExifPhotoDiscoverer.photo_from_path ex) d L).mergeSort
            (fun p q => p.gps_timestamp.getD 0 ≤ q.gps_timestamp.getD 0),
          ({ r with index := 0 } : Photo) = r := by
        intro r hr
        have h0 := exif_candidate_index ex d L r (List.mem_mergeSort.mp hr)
        cases r
        simp only at h0
        rw [h0]
      calc ((candidatePhotos (ExifPhotoDiscoverer.photo_from_path ex) d
              L).mergeSort
            (fun p q => p.gps_timestamp.getD 0 ≤ q.gps_timestamp.getD 0)).map
            (fun r => { r with index := 0 })
          = ((candidatePhotos (ExifPhotoDiscoverer.photo_from_path ex) d
              L).mergeSort
            (fun p q => p.gps_timestamp.getD 0 ≤ q.gps_timestamp.getD 0)).map
            id := List.map_congr_left hid
        _ = _ := List.map_id _
    refine ⟨_, hok, ?_, ?_, ?_⟩
    · have hs := @List.sorted_mergeSort Photo
        (fun p q => decide (p.gps_timestamp.getD 0 ≤ q.gps_timestamp.getD 0))
        (fun a b c => decideLe_trans (fun x : Photo => x.gps_timestamp.getD 0) a b c)
        (fun a b => decideLe_total (fun x : Photo => x.gps_timestamp.getD 0) a b)
        (candidatePhotos (ExifPhotoDiscoverer.photo_from_path ex) d L)
      have hs' := hs.imp (fun hab => of_decide_eq_true hab)
      exact pairwise_assignIndices (fun i p => { p with index := i })
        (fun r : Photo => r.gps_timestamp) (fun x y => x.getD 0 ≤ y.getD 0)
        _ (fun i a => rfl) hs'
    · rw [hreset]
      exact List.mergeSort_perm _ _
    · intro p q hsub hle
      rw [hreset]
      exact List.sublist_mergeSort
        (fun a b c => decideLe_trans (fun x : Photo => x.gps_timestamp.getD 0) a b c)
        (fun a b => decideLe_total (fun x : Photo => x.gps_timestamp.getD 0) a b)
        (List.pairwise_pair.mpr (decide_eq_true hle)) hsub
  · rw [show ExifPhotoDiscoverer.discover exStamped "d".toList
        (some ["b.jpg".toList, "a.jpg".toList]) =
      .ok (assignIndices (fun i p => { p with index := i })
        ((candidatePhotos (ExifPhotoDiscoverer.photo_from_path exStamped)
          "d".toList ["b.jpg".toList, "a.jpg".toList]).mergeSort
          (fun p q => p.gps_timestamp.getD 0 ≤ q.gps_timestamp.getD 0)),
        "photo") from rfl,
      show candidatePhotos (ExifPhotoDiscoverer.photo_from_path exStamped)
          "d".toList ["b.jpg".toList, "a.jpg".toList] =
        [{ path := "d/b.jpg".toList, gps_timestamp := some 2,
           latitude := some 5, longitude := some 6 },
         { path := "d/a.jpg".toList, gps_timestamp := some 1,
           latitude := some 5, longitude := some 6 }] from rfl]
    simp +decide only [List.mergeSort, List.merge, List.splitInTwo,
      List.splitAt, List.splitAt.go, List.reverse_cons, List.reverse_nil,
      List.nil_append, List.cons_append, List.length_cons, List.length_nil,
      if_true, if_false]
    rfl

end VDD

namespace VDD

/-! ### Membership characterization -/

theorem photoNameFilter_iff (n : Name) :
    photoNameFilter n = true ↔
      ((isSubstring "jpg".toList (splitext n).2 = true ∨
        isSubstring "jpeg".toList (splitext n).2 = true) ∧
       isSubstring "thumb".toList (lowerName (splitext n).1) = false) := by
  unfold photoNameFilter
  rw [Bool.and_eq_true, Bool.or_eq_true, Bool.not_eq_true']

theorem mem_map_path_perm {γ : Type _} (ps : List γ) (getPath : γ → Name)
    (d : Name) (L : List Name) (flt : Name → Bool)
    (hperm : (ps.map getPath).Perm ((L.filter flt).map (joinPath d)))
    (hn : ∀ m ∈ L, '/' ∉ m) (n : Name) (hn' : '/' ∉ n) :
    (∃ p ∈ ps, getPath p = joinPath d n) ↔ n ∈ L ∧ flt n = true := by
  constructor
  · rintro ⟨p, hp, hpath⟩
    have h1 : joinPath d n ∈ ps.map getPath := by
      rw [← hpath]
      exact List.mem_map_of_mem getPath hp
    have h2 := hperm.mem_iff.mp h1
    obtain ⟨m, hm, hjoin⟩ := List.mem_map.mp h2
    have hmL := List.mem_of_mem_filter hm
    have : m = n := joinPath_inj d (hn m hmL) hn' hjoin
    subst this
    exact ⟨hmL, List.of_mem_filter hm⟩
  · rintro ⟨hnL, hf⟩
    have h1 : joinPath d n ∈ (L.filter flt).map (joinPath d) :=
      List.mem_map_of_mem (joinPath d) (List.mem_filter.mpr ⟨hnL, hf⟩)
    have h2 := hperm.mem_iff.mpr h1
    obtain ⟨p, hp, hpath⟩ := List.mem_map.mp h2
    exact ⟨p, hp, hpath⟩

theorem plain_photo_discover_eq (d : Name) (L : List Name)
    (hn : ∀ n ∈ L, '/' ∉ n)
    (hp : ∀ n ∈ L, photoNameFilter n = true → (digitKey n).isSome = true) :
    PhotoDiscovery.discover d (some L) =
      .ok (assignIndices (fun i p => { p with index := i })
        ((candidatePhotos PhotoDiscovery.photo_from_path d L).mergeSort
          (fun a b => (digitKey (Photo.path a)).getD 0 ≤
            (digitKey (Photo.path b)).getD 0)), "photo") := by
  rw [PhotoDiscovery.discover, photoDiscoverWith_some,
    show PhotoDiscovery.sort_photo_list
        (candidatePhotos PhotoDiscovery.photo_from_path d L) =
      sortByDigitKey Photo.path
        (candidatePhotos PhotoDiscovery.photo_from_path d L) from rfl,
    sortByDigitKey_ok _ _ (plain_candidates_keys d L hn hp)]

theorem video_discover_eq (d : Name) (L : List Name)
    (hn : ∀ n ∈ L, '/' ∉ n)
    (hv : ∀ n ∈ L, videoNameFilter n = true → (digitKey n).isSome = true) :
    VideoDiscoverer.discover d (some L) =
      .ok (assignIndices (fun i v => { v with index := i })
        ((candidateVideos d L).mergeSort
          (fun a b => (digitKey (Video.path a)).getD 0 ≤
            (digitKey (Video.path b)).getD 0)), "video") := by
  rw [videoDiscover_some,
    sortByDigitKey_ok _ _ (video_candidates_keys d L hn hv)]

theorem plain_photo_paths_perm (d : Name) (L : List Name) :
    ((assignIndices (fun i p => { p with index := i })
      ((candidatePhotos PhotoDiscovery.photo_from_path d L).mergeSort
        (fun a b => (digitKey (Photo.path a)).getD 0 ≤
          (digitKey (Photo.path b)).getD 0))).map Photo.path).Perm
      ((L.filter photoNameFilter).map (joinPath d)) := by
  rw [← candidatePhotos_plain_map_path d L]
  exact perm_map_assignIndices (fun i p => { p with index := i })
    Photo.path (candidatePhotos PhotoDiscovery.photo_from_path d L)
    (fun i a => rfl) _

theorem video_paths_perm (d : Name) (L : List Name) :
    ((assignIndices (fun i v => { v with index := i })
      ((candidateVideos d L).mergeSort
        (fun a b => (digitKey (Video.path a)).getD 0 ≤
          (digitKey (Video.path b)).getD 0))).map Video.path).Perm
      ((L.filter videoNameFilter).map (joinPath d)) := by
  rw [← candidateVideos_map_path d L]
  exact perm_map_assignIndices (fun i v => { v with index := i })
    Video.path (candidateVideos d L) (fun i a => rfl) _

theorem exif_candidate_path (ex : ExifProcessing T) (d : Name) (L : List Name)
    (r : Photo)
    (hr : r ∈ candidatePhotos (ExifPhotoDiscoverer.photo_from_path ex) d L) :
    ∃ n ∈ L, photoNameFilter n = true ∧ r.path = joinPath d n := by
  obtain ⟨n, hnL, hf, hsome⟩ := exif_candidate_mem ex d L r hr
  refine ⟨n, hnL, hf, ?_⟩
  rw [exif_photo_from_path_eq] at hsome
  by_cases hc : (pyFalsy (ex.gps_latitude (ex.all_tags (joinPath d n))) ||
      pyFalsy (ex.gps_longitude (ex.all_tags (joinPath d n))) ||
      pyFalsy (ex.gps_timestamp (ex.all_tags (joinPath d n)))) = true
  · rw [if_pos hc] at hsome
    cases hsome
  · rw [if_neg hc] at hsome
    cases hsome
    rfl

theorem mem_assignIndices (f : Nat → α → α) (l : List α) (q : α)
    (hq : q ∈ assignIndices f l) : ∃ i a, a ∈ l ∧ q = f i a := by
  obtain ⟨ia, hia, hfa⟩ := List.mem_map.mp hq
  refine ⟨ia.1, ia.2, ?_, hfa.symm⟩
  have : ia.2 ∈ l.enum.map Prod.snd := List.mem_map_of_mem Prod.snd hia
  rwa [List.enum_map_snd] at this

end VDD

namespace VDD

/-- C4.  A directory entry becomes a photo candidate exactly when its
extension (as split off by `splitext`) contains the substring `jpg` or
`jpeg` case-sensitively and its name without extension does not contain
the substring `thumb` case-insensitively; it becomes a video candidate
exactly when its extension contains `mp4`.  The record for entry `n` is
in the plain photo (resp. video) output iff `n` is listed and passes that
filter; every metadata-validated record also stems from an entry passing
the photo filter.  Concretely, for a directory holding `thumb_5.jpg`,
`clip_3.mp4`, `clip_3.jpg`, photo discovery returns only the
`clip_3.jpg` record and video discovery only the `clip_3.mp4` record. -/
theorem C4_candidate_filter (T : Type) (ex : ExifProcessing T) (d : Name)
    (L : List Name)
    (hn : ∀ n ∈ L, '/' ∉ n)
    (hp : ∀ n ∈ L, photoNameFilter n = true → (digitKey n).isSome = true)
    (hv : ∀ n ∈ L, videoNameFilter n = true → (digitKey n).isSome = true) :
    (∃ ps vs qs,
      PhotoDiscovery.discover d (some L) = .ok (ps, "photo") ∧
      VideoDiscoverer.discover d (some L) = .ok (vs, "video") ∧
      ExifPhotoDiscoverer.discover ex d (some L) = .ok (qs, "photo") ∧
      (∀ n, '/' ∉ n →
        ((∃ p ∈ ps, Photo.path p = joinPath d n) ↔
          n ∈ L ∧
          (isSubstring "jpg".toList (splitext n).2 = true ∨
           isSubstring "jpeg".toList (splitext n).2 = true) ∧
          isSubstring "thumb".toList (lowerName (splitext n).1) = false)) ∧
      (∀ n, '/' ∉ n →
        ((∃ v ∈ vs, Video.path v = joinPath d n) ↔
          n ∈ L ∧ isSubstring "mp4".toList (splitext n).2 = true)) ∧
      (∀ q ∈ qs, ∃ n ∈ L,
        (isSubstring "jpg".toList (splitext n).2 = true ∨
         isSubstring "jpeg".toList (splitext n).2 = true) ∧
        isSubstring "thumb".toList (lowerName (splitext n).1) = false ∧
        Photo.path q = joinPath d n)) ∧
    (PhotoDiscovery.discover "d".toList
        (some ["thumb_5.jpg".toList, "clip_3.mp4".toList, "clip_3.jpg".toList])
      = .ok ([{ path := "d/clip_3.jpg".toList, index := 0 }], "photo") ∧
     VideoDiscoverer.discover "d".toList
        (some ["thumb_5.jpg".toList, "clip_3.mp4".toList, "clip_3.jpg".toList])
      = .ok ([{ path := "d/clip_3.mp4".toList, index := 0 }], "video")) := by
  constructor
  · refine ⟨_, _, _, plain_photo_discover_eq d L hn hp,
      video_discover_eq d L hn hv, rfl, ?_, ?_, ?_⟩
    · intro n hn'
      rw [mem_map_path_perm _ Photo.path d L photoNameFilter
        (plain_photo_paths_perm d L) hn n hn']
      rw [photoNameFilter_iff]
    · intro n hn'
      rw [mem_map_path_perm _ Video.path d L videoNameFilter
        (video_paths_perm d L) hn n hn']
      rfl
    · intro q hq
      obtain ⟨i, r, hr, rfl⟩ := mem_assignIndices _ _ q hq
      have hr' := List.mem_mergeSort.mp hr
      obtain ⟨n, hnL, hf, hpath⟩ := exif_candidate_path ex d L r hr'
      obtain ⟨h1, h2⟩ := (photoNameFilter_iff n).mp hf
      exact ⟨n, hnL, h1, h2, hpath⟩
  · constructor
    · rw [plain_photo_discover_eq _ _ (by decide) (by decide),
        show candidatePhotos PhotoDiscovery.photo_from_path "d".toList
            ["thumb_5.jpg".toList, "clip_3.mp4".toList, "clip_3.jpg".toList] =
          [{ path := "d/clip_3.jpg".toList }] from rfl]
      simp +decide only [List.mergeSort, List.merge, List.splitInTwo,
        List.splitAt, List.splitAt.go, List.reverse_cons, List.reverse_nil,
        List.nil_append, List.cons_append, List.length_cons, List.length_nil,
        if_true, if_false, List.mergeSort_singleton]
      rfl
    · rw [video_discover_eq _ _ (by decide) (by decide),
        show candidateVideos "d".toList
            ["thumb_5.jpg".toList, "clip_3.mp4".toList, "clip_3.jpg".toList] =
          [{ path := "d/clip_3.mp4".toList }] from rfl]
      simp +decide only [List.mergeSort, List.merge, List.splitInTwo,
        List.splitAt, List.splitAt.go, List.reverse_cons, List.reverse_nil,
        List.nil_append, List.cons_append, List.length_cons, List.length_nil,
        if_true, if_false, List.mergeSort_singleton]
      rfl

/-- C4, witness at the directory of the claim's concrete example. -/
theorem C4_witness :
    ((∀ n ∈ ["clip_3.jpg".toList], '/' ∉ n) ∧
     (∀ n ∈ ["clip_3.jpg".toList],
        photoNameFilter n = true → (digitKey n).isSome = true) ∧
     (∀ n ∈ ["clip_3.jpg".toList],
        videoNameFilter n = true → (digitKey n).isSome = true)) ∧
    (∃ ps vs qs,
      PhotoDiscovery.discover "d".toList (some ["clip_3.jpg".toList])
        = .ok (ps, "photo") ∧
      VideoDiscoverer.discover "d".toList (some ["clip_3.jpg".toList])
        = .ok (vs, "video") ∧
      ExifPhotoDiscoverer.discover exAllPresent "d".toList
          (some ["clip_3.jpg".toList]) = .ok (qs, "photo") ∧
      (∀ n, '/' ∉ n →
        ((∃ p ∈ ps, Photo.path p = joinPath "d".toList n) ↔
          n ∈ ["clip_3.jpg".toList] ∧
          (isSubstring "jpg".toList (splitext n).2 = true ∨
           isSubstring "jpeg".toList (splitext n).2 = true) ∧
          isSubstring "thumb".toList (lowerName (splitext n).1) = false)) ∧
      (∀ n, '/' ∉ n →
        ((∃ v ∈ vs, Video.path v = joinPath "d".toList n) ↔
          n ∈ ["clip_3.jpg".toList] ∧
          isSubstring "mp4".toList (splitext n).2 = true)) ∧
      (∀ q ∈ qs, ∃ n ∈ ["clip_3.jpg".toList],
        (isSubstring "jpg".toList (splitext n).2 = true ∨
         isSubstring "jpeg".toList (splitext n).2 = true) ∧
        isSubstring "thumb".toList (lowerName (splitext n).1) = false ∧
        Photo.path q = joinPath "d".toList n)) :=
  ⟨⟨by decide, by decide, by decide⟩,
   (C4_candidate_filter Unit exAllPresent "d".toList ["clip_3.jpg".toList]
     (by decide) (by decide) (by decide)).1⟩

/-- C10.  Candidate filtering never checks that an entry is a regular
file: any directory entry — in particular a subdirectory — whose name
passes the extension/name filter yields a record in the plain photo
(resp. video) output.  `listdir` reports entry names regardless of
kind and `discover` consults nothing else. -/
theorem C10_no_file_kind_check (d : Name) (entries : List DirEntry)
    (hn : ∀ e ∈ entries, '/' ∉ e.name)
    (hp : ∀ e ∈ entries,
      photoNameFilter e.name = true → (digitKey e.name).isSome = true)
    (hv : ∀ e ∈ entries,
      videoNameFilter e.name = true → (digitKey e.name).isSome = true) :
    ∃ ps vs,
      PhotoDiscovery.discover d (some (listdir entries)) = .ok (ps, "photo") ∧
      VideoDiscoverer.discover d (some (listdir entries)) = .ok (vs, "video") ∧
      (∀ e ∈ entries, e.is_file = false → photoNameFilter e.name = true →
        ∃ p ∈ ps, Photo.path p = joinPath d e.name) ∧
      (∀ e ∈ entries, e.is_file = false → videoNameFilter e.name = true →
        ∃ v ∈ vs, Video.path v = joinPath d e.name) := by
  have hn' : ∀ n ∈ listdir entries, '/' ∉ n := by
    intro n hnm
    obtain ⟨e, he, rfl⟩ := List.mem_map.mp hnm
    exact hn e he
  have hp' : ∀ n ∈ listdir entries,
      photoNameFilter n = true → (digitKey n).isSome = true := by
    intro n hnm
    obtain ⟨e, he, rfl⟩ := List.mem_map.mp hnm
    exact hp e he
  have hv' : ∀ n ∈ listdir entries,
      videoNameFilter n = true → (digitKey n).isSome = true := by
    intro n hnm
    obtain ⟨e, he, rfl⟩ := List.mem_map.mp hnm
    exact hv e he
  refine ⟨_, _, plain_photo_discover_eq d (listdir entries) hn' hp',
    video_discover_eq d (listdir entries) hn' hv', ?_, ?_⟩
  · intro e he hkind hf
    exact (mem_map_path_perm _ Photo.path d (listdir entries) photoNameFilter
      (plain_photo_paths_perm d (listdir entries)) hn' e.name (hn e he)).mpr
      ⟨List.mem_map_of_mem DirEntry.name he, hf⟩
  · intro e he hkind hf
    exact (mem_map_path_perm _ Video.path d (listdir entries) videoNameFilter
      (video_paths_perm d (listdir entries)) hn' e.name (hn e he)).mpr
      ⟨List.mem_map_of_mem DirEntry.name he, hf⟩

/-- C10, witness: a subdirectory entry `dir1.jpg` (not a regular file) and
a subdirectory `dir2.mp4` are both picked up. -/
theorem C10_witness :
    ((∀ e ∈ [DirEntry.mk "dir1.jpg".toList false,
             DirEntry.mk "dir2.mp4".toList false], '/' ∉ e.name) ∧
     (∀ e ∈ [DirEntry.mk "dir1.jpg".toList false,
             DirEntry.mk "dir2.mp4".toList false],
        photoNameFilter e.name = true → (digitKey e.name).isSome = true) ∧
     (∀ e ∈ [DirEntry.mk "dir1.jpg".toList false,
             DirEntry.mk "dir2.mp4".toList false],
        videoNameFilter e.name = true → (digitKey e.name).isSome = true)) ∧
    (∃ ps vs,
      PhotoDiscovery.discover "d".toList
          (some (listdir [DirEntry.mk "dir1.jpg".toList false,
                          DirEntry.mk "dir2.mp4".toList false]))
        = .ok (ps, "photo") ∧
      VideoDiscoverer.discover "d".toList
          (some (listdir [DirEntry.mk "dir1.jpg".toList false,
                          DirEntry.mk "dir2.mp4".toList false]))
        = .ok (vs, "video") ∧
      (∀ e ∈ [DirEntry.mk "dir1.jpg".toList false,
              DirEntry.mk "dir2.mp4".toList false],
        e.is_file = false → photoNameFilter e.name = true →
        ∃ p ∈ ps, Photo.path p = joinPath "d".toList e.name) ∧
      (∀ e ∈ [DirEntry.mk "dir1.jpg".toList false,
              DirEntry.mk "dir2.mp4".toList false],
        e.is_file = false → videoNameFilter e.name = true →
        ∃ v ∈ vs, Video.path v = joinPath "d".toList e.name)) :=
  ⟨⟨by decide, by decide, by decide⟩,
   C10_no_file_kind_check "d".toList
     [DirEntry.mk "dir1.jpg".toList false, DirEntry.mk "dir2.mp4".toList false]
     (by decide) (by decide) (by decide)⟩

/-- C1, amended-claim witness at a concrete extractor with all three
mandatory derivations present and nonzero. -/
theorem C1_witness :
    (ExifPhotoDiscoverer.photo_from_path exAllPresent "p.jpg".toList).isSome
        = true ↔
      ((∃ t, exAllPresent.gps_timestamp
          (exAllPresent.all_tags "p.jpg".toList) = some t ∧ t ≠ 0) ∧
       (∃ a, exAllPresent.gps_latitude
          (exAllPresent.all_tags "p.jpg".toList) = some a ∧ a ≠ 0) ∧
       (∃ o, exAllPresent.gps_longitude
          (exAllPresent.all_tags "p.jpg".toList) = some o ∧ o ≠ 0)) :=
  C1_amended_builder_iff Unit exAllPresent "p.jpg".toList

/-- C3, witness at a concrete non-directory path. -/
theorem C3_witness :
    PhotoDiscovery.discover "nope".toList none = .ok ([], "photo") ∧
    ExifPhotoDiscoverer.discover exAllPresent "nope".toList none
      = .ok ([], "photo") ∧
    VideoDiscoverer.discover "nope".toList none = .ok ([], "video") :=
  C3_not_a_directory Unit exAllPresent "nope".toList

/-- C5, witness at the reversed-listing-order concrete directory. -/
theorem C5_witness :
    ∃ ps,
      ExifPhotoDiscoverer.discover exStamped "d".toList
        (some ["b.jpg".toList, "a.jpg".toList]) = .ok (ps, "photo") ∧
      ps.Pairwise (fun p q =>
        p.gps_timestamp.getD 0 ≤ q.gps_timestamp.getD 0) ∧
      (ps.map (fun r => { r with index := 0 })).Perm
        (candidatePhotos (ExifPhotoDiscoverer.photo_from_path exStamped)
          "d".toList ["b.jpg".toList, "a.jpg".toList]) ∧
      (∀ p q : Photo,
        [p, q].Sublist
          (candidatePhotos (ExifPhotoDiscoverer.photo_from_path exStamped)
            "d".toList ["b.jpg".toList, "a.jpg".toList]) →
        p.gps_timestamp.getD 0 ≤ q.gps_timestamp.getD 0 →
        [p, q].Sublist (ps.map (fun r => { r with index := 0 }))) :=
  (C5_timestamp_sorted Name exStamped "d".toList
    ["b.jpg".toList, "a.jpg".toList]).1

end VDD
